import Mathlib

/-!
Shallow embedding of the browser-side scripts of the Airline-management-system
repository (SkyLink Airlines): the aircraft-admin page (src/unnamed/part_000),
the forgot-password and login scripts (src/unnamed/part_001), the dashboard
script (src/static/js/dashboard.js), the profile/registration script
(src/static/js/profile.js) and the reset-password script
(src/static/js/reset-password.js).

Each DOM event handler is embedded as a pure function from its inputs (form
field values, prompt/confirm results, and the server's reply) to the final
client-visible outcome: whether a network call was issued, the submit button's
final enabled state and caption, the alert message shown, the effect on the
two localStorage keys (`access_token` and `user`), and the navigation target.
DOM rendering that depends on browser locale date formatting is passed in as a
parameter rather than modelled; the two list renderers whose output the spec
constrains (the aircraft grid and the activity log) are modelled as string
functions.

JavaScript numeric quirks that the code relies on are modelled explicitly:
`parseInt` returns `Option Int` (`none` = NaN), `x || fallback` maps both NaN
and 0 (resp. the empty string) to the fallback, and `+` propagates NaN.
String `.length` is modelled by Lean's codepoint count (identical to
JavaScript's UTF-16 count on the ASCII inputs at issue).
-/

/-! ## JavaScript primitives -/

/-- The whitespace characters skipped by `parseInt` before parsing
(ASCII whitespace; exotic Unicode space classes are out of scope). -/
def isJsSpace (c : Char) : Bool :=
  c = ' ' ∨ c = '\t' ∨ c = '\n' ∨ c = '\r' ∨ c = '\x0b' ∨ c = '\x0c'

/-- Value of a list of decimal digit characters. -/
def decVal (cs : List Char) : Nat :=
  cs.foldl (fun a c => a * 10 + (c.toNat - 48)) 0

/-- Hexadecimal digit test, for `parseInt`'s `0x` prefix handling. -/
def isHexDigitJs (c : Char) : Bool :=
  c.isDigit ∨ ('a' ≤ c ∧ c ≤ 'f') ∨ ('A' ≤ c ∧ c ≤ 'F')

/-- Value of one hexadecimal digit character. -/
def hexDigitVal (c : Char) : Nat :=
  if c.isDigit then c.toNat - 48
  else if 'a' ≤ c then c.toNat - 87
  else c.toNat - 55

/-- Value of a list of hexadecimal digit characters. -/
def hexVal (cs : List Char) : Nat :=
  cs.foldl (fun a c => a * 16 + hexDigitVal c) 0

/-- Unsigned part of JavaScript `parseInt`: a `0x`/`0X` prefix switches to
hexadecimal, otherwise the longest leading run of decimal digits is taken;
no digits means NaN (`none`). -/
def parseUnsignedJs (cs : List Char) : Option Nat :=
  match cs with
  | '0' :: x :: rest =>
    if x = 'x' ∨ x = 'X' then
      let ds := rest.takeWhile isHexDigitJs
      if ds.isEmpty then none else some (hexVal ds)
    else
      let ds := ('0' :: x :: rest).takeWhile Char.isDigit
      if ds.isEmpty then none else some (decVal ds)
  | _ =>
    let ds := cs.takeWhile Char.isDigit
    if ds.isEmpty then none else some (decVal ds)

/-- JavaScript `parseInt(s)` (default radix): skip leading whitespace, an
optional sign, then parse the leading digit run; `none` models NaN. -/
def parseIntJS (s : String) : Option Int :=
  let cs := s.data.dropWhile isJsSpace
  match cs with
  | '-' :: rest => (parseUnsignedJs rest).map (fun n => -(n : Int))
  | '+' :: rest => (parseUnsignedJs rest).map (fun n => (n : Int))
  | _ => (parseUnsignedJs cs).map (fun n => (n : Int))

/-- JavaScript `n || d` on a number that may be NaN (`none`): NaN and `0` are
falsy and yield the fallback `d`. -/
def jsNumOr (o : Option Int) (d : Int) : Int :=
  match o with
  | none => d
  | some v => if v = 0 then d else v

/-- JavaScript `parseInt(...) || null`: NaN and `0` become `null` (`none`). -/
def jsIntOrNull (o : Option Int) : Option Int :=
  match o with
  | some 0 => none
  | x => x

/-- JavaScript `s || d` on a string that may be undefined (`none`): undefined
and the empty string are falsy and yield the fallback `d`. -/
def jsOrStr (o : Option String) (d : String) : String :=
  match o with
  | none => d
  | some s => if s = "" then d else s

/-- JavaScript string concatenation with a possibly-undefined value:
`'x' + undefined` produces the literal text `"undefined"`. -/
def jsConcatStr (o : Option String) : String :=
  match o with
  | none => "undefined"
  | some s => s

/-- JavaScript `a + b` on numbers where either side may be NaN (`none`):
NaN propagates. -/
def jsAdd (a b : Option Int) : Option Int :=
  match a, b with
  | some x, some y => some (x + y)
  | _, _ => none

/-- JavaScript `s.toLowerCase()` on the ASCII inputs at issue, computed
character-wise so the kernel can evaluate it. -/
def toLowerJs (s : String) : String :=
  String.mk (s.data.map Char.toLower)

/-- JavaScript `s.trim()` on the ASCII inputs at issue: strip leading and
trailing whitespace, computed list-wise so the kernel can evaluate it. -/
def trimJs (s : String) : String :=
  String.mk (((s.data.dropWhile isJsSpace).reverse.dropWhile isJsSpace).reverse)

/-! ## Persistent session store

The two localStorage keys every page reads and writes:
`access_token` and `user` (the serialized user object, modelled
structurally). -/

/-- The cached user summary stored under the `user` key. Only the fields the
scripts read or write are carried. -/
structure User where
  full_name : String
  email : String
deriving DecidableEq, Repr

/-- The browser's persistent key-value store, restricted to the two keys the
scripts use (spec §6: "two keys in local storage"). -/
structure Storage where
  access_token : Option String
  user : Option User
deriving DecidableEq, Repr

/-- Every write the five scripts perform against the session store:
* `keep` — handler paths that do not touch storage;
* `clearBoth` — `localStorage.removeItem('access_token')` immediately followed
  by `localStorage.removeItem('user')` (logout handlers; 401 expiry paths);
* `setSession` — the login success path's back-to-back
  `setItem('access_token', …); setItem('user', …)` (part_001 lines 83–84);
* `updateUser` — profile.js lines 127–131: on profile-update success, re-store
  the cached user with `full_name` replaced when a non-empty name was
  submitted, but only if a `user` entry already exists. -/
inductive StorageAction where
  | keep
  | clearBoth
  | setSession (tok : String) (u : User)
  | updateUser (newName : String)
deriving DecidableEq, Repr

/-- Apply one storage write to the store. -/
def applyAction : StorageAction → Storage → Storage
  | .keep, s => s
  | .clearBoth, _ => { access_token := none, user := none }
  | .setSession t u, _ => { access_token := some t, user := some u }
  | .updateUser n, s =>
    match s.user with
    | none => s
    | some u =>
      { s with user := some { u with full_name := if n = "" then u.full_name else n } }

/-- Storage before any script has run: neither key present. -/
def initialStorage : Storage := { access_token := none, user := none }

/-- The store after a sequence of handler storage writes, starting empty. -/
def runActions (acts : List StorageAction) : Storage :=
  acts.foldl (fun s a => applyAction a s) initialStorage

/-- The session invariant of spec §3: the token key and the user key exist
together or not at all. -/
def sessionConsistent (s : Storage) : Prop :=
  s.access_token.isSome = s.user.isSome

/-! ## Aircraft admin page (src/unnamed/part_000) -/

/-- The `aircraftData` object built by `saveAircraft` (part_000 lines
237–247). Seat counts come from bare `parseInt` with no `|| 0` fallback, so
an empty field is NaN (`none`), and `total_seats` is the JavaScript sum
`economy + business + first` with NaN propagation. -/
structure AircraftData where
  aircraft_number : String
  manufacturer : String
  model : String
  manufacturing_year : Option Int
  economy_seats : Option Int
  business_seats : Option Int
  first_class_seats : Option Int
  total_seats : Option Int
  status : String
deriving DecidableEq, Repr

/-- `saveAircraft`'s request body as a function of the form field values
(part_000 lines 233–247), assuming `form.checkValidity()` passed. -/
def saveAircraftData (num manu mdl yearS eS bS fS st : String) : AircraftData :=
  let economy := parseIntJS eS
  let business := parseIntJS bS
  let first := parseIntJS fS
  { aircraft_number := num
    manufacturer := manu
    model := mdl
    manufacturing_year := jsIntOrNull (parseIntJS yearS)
    economy_seats := economy
    business_seats := business
    first_class_seats := first
    total_seats := jsAdd (jsAdd economy business) first
    status := st }

/-- `calculateTotalSeats` (part_000 lines 26–36): the live display total,
computed with `parseInt(...) || 0` on each field. -/
def calculateTotalSeats (eS bS fS : String) : Int :=
  jsNumOr (parseIntJS eS) 0 + jsNumOr (parseIntJS bS) 0 + jsNumOr (parseIntJS fS) 0

/-- The record shape of a fetched aircraft (spec §3). -/
structure Aircraft where
  id : Nat
  aircraft_number : String
  manufacturer : String
  model : String
  manufacturing_year : Option Int
  economy_seats : Int
  business_seats : Int
  first_class_seats : Int
  total_seats : Int
  status : String
deriving DecidableEq, Repr

/-- The empty-state fragment `displayAircraft` writes for an empty list
(part_000 lines 72–80; template-literal indentation collapsed). -/
def aircraftEmptyState : String :=
  "<div class=\"empty-state\"><div class=\"empty-state-icon\">✈️</div><p>No aircraft found. Click \"Add New Aircraft\" to add one.</p></div>"

/-- One aircraft card of the grid (part_000 lines 82–125; template-literal
indentation collapsed, interpolations preserved). `manufacturing_year ||
'N/A'` renders `N/A` for a missing (or zero) year. -/
def aircraftCard (a : Aircraft) : String :=
  "<div class=\"aircraft-card\"><div class=\"aircraft-header\"><div class=\"aircraft-number\">" ++
    a.aircraft_number ++
  "</div><div class=\"aircraft-status status-" ++ a.status ++ "\">" ++ a.status ++
  "</div></div><div class=\"aircraft-info\"><div class=\"info-row\"><span class=\"info-label\">Manufacturer</span><span class=\"info-value\">" ++
    a.manufacturer ++
  "</span></div><div class=\"info-row\"><span class=\"info-label\">Model</span><span class=\"info-value\">" ++
    a.model ++
  "</span></div><div class=\"info-row\"><span class=\"info-label\">Year</span><span class=\"info-value\">" ++
    (match jsIntOrNull a.manufacturing_year with
     | none => "N/A"
     | some y => toString y) ++
  "</span></div><div class=\"info-row\"><span class=\"info-label\">Total Capacity</span><span class=\"info-value\">" ++
    toString a.total_seats ++
  " seats</span></div></div><div class=\"seat-breakdown\"><div class=\"seat-type\"><div class=\"seat-type-label\">Economy</div><div class=\"seat-type-value\">" ++
    toString a.economy_seats ++
  "</div></div><div class=\"seat-type\"><div class=\"seat-type-label\">Business</div><div class=\"seat-type-value\">" ++
    toString a.business_seats ++
  "</div></div><div class=\"seat-type\"><div class=\"seat-type-label\">First</div><div class=\"seat-type-value\">" ++
    toString a.first_class_seats ++
  "</div></div></div><div class=\"aircraft-actions\"><button class=\"btn btn-warning btn-small\" style=\"flex: 1;\" onclick=\"editAircraft(" ++
    toString a.id ++
  ")\">Edit</button><button class=\"btn btn-secondary btn-small\" onclick=\"changeStatus(" ++
    toString a.id ++ ", '" ++ a.status ++
  "')\">Change Status</button></div></div>"

/-- The HTML `displayAircraft` assigns to the grid (part_000 lines 64–126):
the empty-state fragment for an empty list, otherwise `map`/`join('')` of the
cards. -/
def displayAircraftHtml (aircraft : List Aircraft) : String :=
  if aircraft.length = 0 then aircraftEmptyState
  else String.join (aircraft.map aircraftCard)

/-! ## Server replies and page/handler effects -/

/-- What a `fetch` resolves to, from the handler's point of view: an HTTP
response whose JSON body may carry `detail` (error text) and `message`
(success text) fields, or a network-level failure caught by the handler's
`catch`. -/
inductive ServerReply where
  | reply (status : Nat) (detail : Option String) (message : Option String)
  | netError (errMsg : String)
deriving DecidableEq, Repr

/-- `response.ok`: the HTTP status is in the 2xx range. -/
def okStatus (status : Nat) : Prop := 200 ≤ status ∧ status ≤ 299

instance (status : Nat) : Decidable (okStatus status) :=
  inferInstanceAs (Decidable (200 ≤ status ∧ status ≤ 299))

/-- The session-relevant outcome of a non-form handler: its storage write,
its navigation target, the alert it raises, and (where modelled) the HTML it
writes into its target element. -/
structure PageEffect where
  storage : StorageAction
  navigate : Option String
  alert : Option String
  html : Option String
deriving DecidableEq, Repr

/-- The final client-visible outcome of one form submission handler. -/
structure FormResult where
  networkCalled : Bool
  btnDisabled : Bool
  btnText : String
  message : Option String
  storage : StorageAction
  navigate : Option String
deriving DecidableEq, Repr

/-! ## Dashboard page (src/static/js/dashboard.js) -/

/-- An activity log entry (spec §3). `timestamp` carries the display string;
the `new Date(...).toLocaleString('en-US', …)` formatting applied to the raw
value is browser-locale behaviour outside this embedding. -/
structure LogEntry where
  action : String
  details : Option String
  timestamp : String
  ip_address : Option String
deriving DecidableEq, Repr

/-- The empty-state fragment for an empty activity log list
(dashboard.js line 105, verbatim). -/
def noActivityHtml : String :=
  "<p style=\"text-align: center; color: #999;\">No recent activity</p>"

/-- One activity item (dashboard.js lines 118–124; template-literal
indentation collapsed). `log.details || '…'` and `log.ip_address || '…'`
treat undefined and the empty string as absent. -/
def activityItemHtml (log : LogEntry) : String :=
  "<div class=\"activity-item\"><strong>" ++ log.action ++ "</strong><p>" ++
    jsOrStr log.details "No details available" ++ "</p><small>🕒 " ++
    log.timestamp ++ " | 📍 " ++ jsOrStr log.ip_address "Unknown" ++
  "</small></div>"

/-- The HTML `loadActivityLogs` writes into `activityLogs` on a 2xx response
(dashboard.js lines 101–127): the empty-state fragment for an empty list,
otherwise `map`/`join('')` of the items. -/
def activityLogsHtml (logs : List LogEntry) : String :=
  if logs.length = 0 then noActivityHtml
  else String.join (logs.map activityItemHtml)

/-- Response handling of dashboard `loadActivityLogs` (dashboard.js lines
93–135): a 2xx renders the list; every other status — 401 included — only
writes an error fragment, touching neither storage nor location. -/
def dashActivityLogsEffect (status : Nat) (logs : List LogEntry) : PageEffect :=
  if okStatus status then
    { storage := .keep, navigate := none, alert := none
      html := some (activityLogsHtml logs) }
  else
    { storage := .keep, navigate := none, alert := none
      html := some "<p style=\"color: #dc3545;\">Error loading activity logs</p>" }

/-- Response handling of dashboard `loadProfile` (dashboard.js lines 13–90).
`renderedInfo` stands for the `userInfo` markup of the 2xx branch, whose
locale-formatted dates are outside this embedding. The 401 branch — checked
after `response.ok` and before the generic error branch — clears both storage
keys and navigates to the login page. -/
def dashLoadProfileEffect (status : Nat) (renderedInfo : String) : PageEffect :=
  if okStatus status then
    { storage := .keep, navigate := none, alert := none, html := some renderedInfo }
  else if status = 401 then
    { storage := .clearBoth, navigate := some "/login"
      alert := some "⚠️ Session expired. Please login again.", html := none }
  else
    { storage := .keep, navigate := none, alert := none
      html := some "<p style=\"color: #dc3545;\">Error loading profile</p>" }

/-- The dashboard logout click handler (dashboard.js lines 138–162): once the
user confirms, the `/api/logout` POST runs inside a `try` whose `catch` only
logs, and the two `removeItem` calls and the navigation to `/` follow
unconditionally; the reply `srv` is never inspected. -/
def dashboardLogoutEffect (confirmed : Bool) (_srv : ServerReply) : PageEffect :=
  if confirmed then
    { storage := .clearBoth, navigate := some "/"
      alert := some "✅ Logged out successfully!", html := none }
  else
    { storage := .keep, navigate := none, alert := none, html := none }

/-! ## Profile page (src/static/js/profile.js) -/

/-- Response handling of profile-page `loadProfile` (profile.js lines 13–59):
a 2xx pre-fills form fields (no storage or navigation effect); a 401 clears
both keys and navigates to login; anything else alerts. -/
def profileLoadProfileEffect (status : Nat) : PageEffect :=
  if okStatus status then
    { storage := .keep, navigate := none, alert := none, html := none }
  else if status = 401 then
    { storage := .clearBoth, navigate := some "/login"
      alert := some "⚠️ Session expired. Please login again.", html := none }
  else
    { storage := .keep, navigate := none
      alert := some "❌ Error loading profile data", html := none }

/-- The profile update submit handler (profile.js lines 84–149). Validation
runs before the button is disabled: a non-empty password shorter than 6
characters blocks, as does a non-empty trimmed name shorter than 2; an empty
password field merely omits the password from the request. The `finally`
block re-enables the button on every network path. A 401 clears both keys and
navigates to login; success re-stores the cached user via `updateUser`. -/
def profileSubmit (fullName phone password origText : String)
    (srv : ServerReply) : FormResult :=
  if password ≠ "" ∧ password.length < 6 then
    { networkCalled := false, btnDisabled := false, btnText := origText
      message := some "❌ Password must be at least 6 characters long!"
      storage := .keep, navigate := none }
  else if trimJs fullName ≠ "" ∧ (trimJs fullName).length < 2 then
    { networkCalled := false, btnDisabled := false, btnText := origText
      message := some "❌ Please enter a valid full name!"
      storage := .keep, navigate := none }
  else
    match srv with
    | .reply status detail _ =>
      if okStatus status then
        { networkCalled := true, btnDisabled := false, btnText := origText
          message := some "✅ Profile updated successfully!"
          storage := .updateUser (trimJs fullName), navigate := none }
      else if status = 401 then
        { networkCalled := true, btnDisabled := false, btnText := origText
          message := some "⚠️ Session expired. Please login again."
          storage := .clearBoth, navigate := some "/login" }
      else
        { networkCalled := true, btnDisabled := false, btnText := origText
          message := some ("❌ Error: " ++ jsOrStr detail "Update failed. Please try again.")
          storage := .keep, navigate := none }
    | .netError m =>
      { networkCalled := true, btnDisabled := false, btnText := origText
        message := some ("❌ Network error: " ++ m)
        storage := .keep, navigate := none }

/-- A selected file, as the photo-upload change handler sees it. -/
structure FileDesc where
  type : String
  size : Nat
deriving DecidableEq, Repr

/-- The MIME types the photo-upload handler accepts (profile.js line 157). -/
def allowedTypes : List String :=
  ["image/jpeg", "image/jpg", "image/png", "image/webp"]

/-- Outcome of the `photoInput` change handler before/at the upload request
(profile.js lines 152–207). -/
inductive PhotoChangeResult where
  | noFile
  | rejectedType
  | rejectedSize
  | uploadIssued
deriving DecidableEq, Repr

/-- The `photoInput` change handler's gate (profile.js lines 152–169): no
file selected returns silently; a disallowed MIME type or a size above
5 · 1024 · 1024 bytes alerts and clears the input without uploading; only a
file passing both checks reaches the `/api/upload-photo` request. -/
def photoInputChange (f : Option FileDesc) : PhotoChangeResult :=
  match f with
  | none => .noFile
  | some file =>
    if ¬ allowedTypes.contains file.type then .rejectedType
    else if file.size > 5 * 1024 * 1024 then .rejectedSize
    else .uploadIssued

/-- Whether the change handler issues the upload request. -/
def photoUploadRequested : PhotoChangeResult → Bool
  | .uploadIssued => true
  | _ => false

/-- Whether the change handler clears the file input: both reject branches do
(`e.target.value = ''` before `return`), and the upload path does so after
the request (line 206); only the no-file early return leaves it untouched. -/
def photoInputCleared : PhotoChangeResult → Bool
  | .noFile => false
  | _ => true

/-- Response handling of the photo upload request (profile.js lines 192–204):
no 401 branch; a failure alerts and reloads the profile view, leaving storage
and location unchanged. -/
def photoUploadRespond (status : Nat) (detail msg : Option String) : PageEffect :=
  if okStatus status then
    { storage := .keep, navigate := none
      alert := some ("✅ " ++ jsConcatStr msg), html := none }
  else
    { storage := .keep, navigate := none
      alert := some ("❌ Error: " ++ jsOrStr detail "Upload failed"), html := none }

/-- Response handling of the delete-photo click handler (profile.js lines
210–233): no 401 branch; failures only alert. -/
def deletePhotoRespond (status : Nat) (detail msg : Option String) : PageEffect :=
  if okStatus status then
    { storage := .keep, navigate := none
      alert := some ("✅ " ++ jsConcatStr msg), html := none }
  else
    { storage := .keep, navigate := none
      alert := some ("❌ Error: " ++ jsOrStr detail "Delete failed"), html := none }

/-- The profile-page logout click handler (profile.js lines 236–256):
identical to the dashboard one — after confirmation the storage clear and the
navigation to `/` never depend on the `/api/logout` reply. -/
def profileLogoutEffect (confirmed : Bool) (_srv : ServerReply) : PageEffect :=
  if confirmed then
    { storage := .clearBoth, navigate := some "/"
      alert := some "✅ Logged out successfully!", html := none }
  else
    { storage := .keep, navigate := none, alert := none, html := none }

/-- The aircraft-admin `logout` function (part_000 lines 304–308): no
confirmation and no network call; clears both keys and navigates to login. -/
def aircraftLogoutEffect : PageEffect :=
  { storage := .clearBoth, navigate := some "/login", alert := none, html := none }

/-! ## Forgot-password and login scripts (src/unnamed/part_001) -/

/-- The forgot-password submit handler (part_001 lines 5–45): an empty
trimmed email blocks before the button is disabled; the `finally` block
re-enables the button on every network path. -/
def forgotPasswordSubmit (email origText : String) (srv : ServerReply) : FormResult :=
  if trimJs email = "" then
    { networkCalled := false, btnDisabled := false, btnText := origText
      message := some "❌ Please enter your email address!"
      storage := .keep, navigate := none }
  else
    match srv with
    | .reply status detail msg =>
      if okStatus status then
        { networkCalled := true, btnDisabled := false, btnText := origText
          message := some ("✅ " ++ jsConcatStr msg ++ "\n\nPlease check your email (or terminal console in development mode) for the password reset link.")
          storage := .keep, navigate := none }
      else
        { networkCalled := true, btnDisabled := false, btnText := origText
          message := some ("❌ Error: " ++ jsOrStr detail "Failed to send reset email")
          storage := .keep, navigate := none }
    | .netError m =>
      { networkCalled := true, btnDisabled := false, btnText := origText
        message := some ("❌ Network error: " ++ m)
        storage := .keep, navigate := none }

/-- The login submit handler (part_001 lines 49–103): an empty trimmed email
or empty password blocks before the button is disabled. On a 2xx the token
and the user object are stored back-to-back and the page navigates to the
dashboard, leaving the button disabled; on any other status or a network
error the button is re-enabled with its original caption and storage is
untouched. `tok` and `u` stand for `data.access_token` and `data.user` of the
success body. -/
def loginSubmit (email password origText : String) (srv : ServerReply)
    (tok : String) (u : User) : FormResult :=
  if trimJs email = "" ∨ password = "" then
    { networkCalled := false, btnDisabled := false, btnText := origText
      message := some "❌ Please fill in all fields!"
      storage := .keep, navigate := none }
  else
    match srv with
    | .reply status detail _ =>
      if okStatus status then
        { networkCalled := true, btnDisabled := true, btnText := "Logging in..."
          message := some ("✅ Login successful! Welcome back, " ++ u.full_name ++ "!")
          storage := .setSession tok u, navigate := some "/dashboard" }
      else
        { networkCalled := true, btnDisabled := false, btnText := origText
          message := some ("❌ Error: " ++ jsOrStr detail "Invalid email or password")
          storage := .keep, navigate := none }
    | .netError m =>
      { networkCalled := true, btnDisabled := false, btnText := origText
        message := some ("❌ Network error: " ++ m ++ "\n\nPlease check your connection and try again.")
        storage := .keep, navigate := none }

/-! ## Registration script (src/static/js/profile.js lines 263–320) -/

/-- The registration submit handler: a password shorter than 6 characters
blocks first, then a trimmed full name shorter than 2; both happen before the
button is disabled. Success navigates to login with the button left disabled;
failures re-enable it. -/
def registerSubmit (email fullName password phone role origText : String)
    (srv : ServerReply) : FormResult :=
  if password.length < 6 then
    { networkCalled := false, btnDisabled := false, btnText := origText
      message := some "❌ Password must be at least 6 characters long!"
      storage := .keep, navigate := none }
  else if (trimJs fullName).length < 2 then
    { networkCalled := false, btnDisabled := false, btnText := origText
      message := some "❌ Please enter a valid full name!"
      storage := .keep, navigate := none }
  else
    match srv with
    | .reply status detail _ =>
      if okStatus status then
        { networkCalled := true, btnDisabled := true, btnText := "Creating Account..."
          message := some "✅ Registration successful! You can now login."
          storage := .keep, navigate := some "/login" }
      else
        { networkCalled := true, btnDisabled := false, btnText := origText
          message := some ("❌ Error: " ++ jsOrStr detail "Registration failed. Please try again.")
          storage := .keep, navigate := none }
    | .netError m =>
      { networkCalled := true, btnDisabled := false, btnText := origText
        message := some ("❌ Network error: " ++ m ++ "\n\nPlease check your connection and try again.")
        storage := .keep, navigate := none }

/-! ## Reset-password script (src/static/js/reset-password.js) -/

/-- The reset-password submit handler (reset-password.js lines 14–65): a
password shorter than 6 characters blocks first, then a mismatch with the
confirmation field; both happen before the button is disabled. Success
navigates to login with the button left disabled; failures re-enable it. -/
def resetPasswordSubmit (password confirmPassword origText : String)
    (srv : ServerReply) : FormResult :=
  if password.length < 6 then
    { networkCalled := false, btnDisabled := false, btnText := origText
      message := some "❌ Password must be at least 6 characters long!"
      storage := .keep, navigate := none }
  else if password ≠ confirmPassword then
    { networkCalled := false, btnDisabled := false, btnText := origText
      message := some "❌ Passwords do not match!"
      storage := .keep, navigate := none }
  else
    match srv with
    | .reply status detail msg =>
      if okStatus status then
        { networkCalled := true, btnDisabled := true, btnText := "Resetting..."
          message := some ("✅ " ++ jsConcatStr msg)
          storage := .keep, navigate := some "/login" }
      else
        { networkCalled := true, btnDisabled := false, btnText := origText
          message := some ("❌ Error: " ++ jsOrStr detail "Password reset failed")
          storage := .keep, navigate := none }
    | .netError m =>
      { networkCalled := true, btnDisabled := false, btnText := origText
        message := some ("❌ Network error: " ++ m)
        storage := .keep, navigate := none }

/-! ## Aircraft status editor (part_000 `changeStatus`) -/

/-- The enumerated statuses of the status editor (part_000 line 186). -/
def statusList : List String := ["active", "maintenance", "retired"]

/-- What `changeStatus` does with the `prompt` result before any network
activity. -/
inductive ChangeStatusStep where
  | rejected (msg : String)
  | request (newStatus : String)
deriving DecidableEq, Repr

/-- The local gate of `changeStatus` (part_000 lines 185–195): a cancelled
prompt (`null`, i.e. `none`), an empty string, or a value whose lowercase
form is not in `statusList` alerts `Invalid status` and returns without any
network call; otherwise the PUT is issued with the lowercased status. -/
def changeStatusPrompt (inp : Option String) : ChangeStatusStep :=
  match inp with
  | none => .rejected "Invalid status"
  | some s =>
    if s = "" ∨ ¬ statusList.contains (toLowerJs s) then .rejected "Invalid status"
    else .request (toLowerJs s)

/-- Decidable mirror of the prompt values `changeStatus` accepts. -/
def statusInputAccepted (inp : Option String) : Bool :=
  match inp with
  | none => false
  | some s => !(s == "") && statusList.contains (toLowerJs s)

/-- Response handling of `changeStatus`'s PUT (part_000 lines 197–222): there
is no 401 branch — every non-2xx status throws into the `catch`, which only
alerts; storage and location are untouched. -/
def changeStatusRespond (status : Nat) (detail : Option String) : PageEffect :=
  if okStatus status then
    { storage := .keep, navigate := none
      alert := some "Status updated successfully!", html := none }
  else
    { storage := .keep, navigate := none
      alert := some ("Error updating status: " ++ jsOrStr detail "Failed to update status")
      html := none }

/-- Response handling of `saveAircraft`'s POST/PUT (part_000 lines 249–281):
no 401 branch — every non-2xx throws into the `catch`, which only alerts. -/
def saveAircraftRespond (editing : Bool) (status : Nat) (detail : Option String) :
    PageEffect :=
  if okStatus status then
    { storage := .keep, navigate := none
      alert := some (if editing then "Aircraft updated successfully!"
                     else "Aircraft created successfully!")
      html := none }
  else
    { storage := .keep, navigate := none
      alert := some ("Error: " ++ jsOrStr detail "Failed to save aircraft")
      html := none }

/-! ## Shared outcome predicates -/

/-- A submission that validation blocked locally: no network call, the submit
control still enabled with its original caption, a message shown, storage and
location untouched. -/
def blockedLocally (r : FormResult) (orig : String) : Prop :=
  r.networkCalled = false ∧ r.btnDisabled = false ∧ r.btnText = orig ∧
    r.message.isSome = true ∧ r.storage = .keep ∧ r.navigate = none

/-- A form restored to its idle state after a failed request: button
re-enabled with its original caption, an error message surfaced, storage and
location untouched. -/
def restoredIdle (r : FormResult) (orig : String) : Prop :=
  r.btnDisabled = false ∧ r.btnText = orig ∧ r.message.isSome = true ∧
    r.storage = .keep ∧ r.navigate = none

/-- A server outcome in the "failed" category of spec §7 (c)/(d): a non-2xx
HTTP status other than 401, or a network-level error. -/
def serverFailureNon401 : ServerReply → Prop
  | .reply s _ _ => ¬ okStatus s ∧ s ≠ 401
  | .netError _ => True

/-! ## Helper lemmas -/

theorem jsNumOr_some_zero (v : Int) : jsNumOr (some v) 0 = v := by
  unfold jsNumOr
  by_cases h : v = 0 <;> simp [h]

theorem applyAction_preserves_consistent (a : StorageAction) (s : Storage)
    (h : sessionConsistent s) : sessionConsistent (applyAction a s) := by
  cases a with
  | keep => exact h
  | clearBoth => rfl
  | setSession t u => rfl
  | updateUser n =>
    unfold applyAction
    unfold sessionConsistent at h ⊢
    cases hu : s.user with
    | none => simp only [hu]; rw [hu] at h; exact h
    | some u => simp only [hu]; rw [hu] at h; simp at h ⊢; exact h

theorem foldl_actions_preserve_consistent (acts : List StorageAction) :
    ∀ s : Storage, sessionConsistent s →
      sessionConsistent (acts.foldl (fun s a => applyAction a s) s) := by
  induction acts with
  | nil => intro s h; exact h
  | cons a as ih =>
    intro s h
    exact ih (applyAction a s) (applyAction_preserves_consistent a s h)

/-! ## Claims -/

/-- C2, counterexample: with the economy field left empty, `saveAircraft`
sends `total_seats = NaN` (serialized `null`), not the empty-treated-as-0 sum
`0 + 5 + 3 = 8` that the claim asserts — even though the live display total
`calculateTotalSeats` (which does use `|| 0`) shows 8. -/
theorem saveAircraft_empty_seat_counterexample :
    (saveAircraftData "AB123" "Boeing" "737-800" "2015" "" "5" "3" "active").total_seats ≠ some 8 ∧
    (saveAircraftData "AB123" "Boeing" "737-800" "2015" "" "5" "3" "active").total_seats = none ∧
    calculateTotalSeats "" "5" "3" = 8 := by
  refine ⟨?_, ?_, ?_⟩ <;> decide

/-- C2, amended: whenever all three seat-count fields parse as integers, the
`total_seats` value `saveAircraft` sends equals
`economy_seats + business_seats + first_class_seats`, and agrees with the
displayed `calculateTotalSeats` total; an unparsable (e.g. empty) field is
NOT treated as 0 at submission — it makes the sent field and total NaN. -/
theorem saveAircraft_total_is_sum_when_parsed :
    ∀ (num manu mdl yr eS bS fS st : String) (x y z : Int),
      parseIntJS eS = some x → parseIntJS bS = some y → parseIntJS fS = some z →
      (saveAircraftData num manu mdl yr eS bS fS st).total_seats = some (x + y + z) ∧
      (saveAircraftData num manu mdl yr eS bS fS st).economy_seats = some x ∧
      (saveAircraftData num manu mdl yr eS bS fS st).business_seats = some y ∧
      (saveAircraftData num manu mdl yr eS bS fS st).first_class_seats = some z ∧
      calculateTotalSeats eS bS fS = x + y + z := by
  intro num manu mdl yr eS bS fS st x y z he hb hf
  unfold saveAircraftData calculateTotalSeats
  rw [he, hb, hf]
  refine ⟨rfl, rfl, rfl, rfl, ?_⟩
  rw [jsNumOr_some_zero, jsNumOr_some_zero, jsNumOr_some_zero]

/-- C2, witness: concrete filled form, all fields parsing. -/
theorem saveAircraft_total_is_sum_witness :
    parseIntJS "180" = some 180 ∧
    (saveAircraftData "AB123" "Boeing" "737-800" "2015" "180" "24" "8" "active").total_seats
      = some (180 + 24 + 8) ∧
    calculateTotalSeats "180" "24" "8" = 180 + 24 + 8 := by
  have h := saveAircraft_total_is_sum_when_parsed "AB123" "Boeing" "737-800" "2015"
    "180" "24" "8" "active" 180 24 8 (by decide) (by decide) (by decide)
  exact ⟨by decide, h.1, h.2.2.2.2⟩

/-- C3: starting from an empty store, any sequence of the session-store
writes the five scripts perform (login success setting both keys, logout and
401 expiry clearing both, the profile-update success rewriting the stored
user only when one exists) leaves the token key and the user key existing
together or not at all. -/
theorem session_keys_together :
    ∀ acts : List StorageAction, sessionConsistent (runActions acts) := by
  intro acts
  exact foldl_actions_preserve_consistent acts initialStorage rfl

/-- C5: whenever the reset-password form's password and confirmation fields
differ, submission is blocked locally — no network call, button untouched —
whatever the individual values are. -/
theorem resetPassword_mismatch_blocks :
    ∀ (p c t : String) (srv : ServerReply), p ≠ c →
      blockedLocally (resetPasswordSubmit p c t srv) t := by
  intro p c t srv hne
  unfold resetPasswordSubmit
  by_cases h1 : p.length < 6
  · rw [if_pos h1]
    exact ⟨rfl, rfl, rfl, rfl, rfl, rfl⟩
  · rw [if_neg h1, if_pos hne]
    exact ⟨rfl, rfl, rfl, rfl, rfl, rfl⟩

/-- C5, witness: two individually valid but different passwords. -/
theorem resetPassword_mismatch_blocks_witness :
    ("abcdef" : String) ≠ "abcdeg" ∧
    blockedLocally
      (resetPasswordSubmit "abcdef" "abcdeg" "Reset Password" (.reply 200 none none))
      "Reset Password" := by
  exact ⟨by decide,
    resetPassword_mismatch_blocks "abcdef" "abcdeg" "Reset Password"
      (.reply 200 none none) (by decide)⟩

/-- C6: any status-editor prompt result that is cancelled, empty, or not one
of `active`/`maintenance`/`retired` up to case is rejected locally with
`Invalid status`; the PUT is never issued. -/
theorem changeStatus_invalid_input_rejected :
    ∀ inp : Option String, statusInputAccepted inp = false →
      changeStatusPrompt inp = .rejected "Invalid status" := by
  intro inp h
  cases inp with
  | none => rfl
  | some s =>
    have h' : (!(s == "") && statusList.contains (toLowerJs s)) = false := h
    show (if s = "" ∨ ¬ statusList.contains (toLowerJs s) then
            ChangeStatusStep.rejected "Invalid status"
          else ChangeStatusStep.request (toLowerJs s)) =
        ChangeStatusStep.rejected "Invalid status"
    by_cases h1 : s = ""
    · rw [if_pos (Or.inl h1)]
    · by_cases h2 : statusList.contains (toLowerJs s) = true
      · exfalso
        have hs : (s == "") = false := beq_eq_false_iff_ne.mpr h1
        rw [hs, h2] at h'
        simp at h'
      · rw [if_pos (Or.inr h2)]

/-- C6, witness: the prompt input `grounded` is not an allowed status and is
rejected before any network activity. -/
theorem changeStatus_invalid_input_rejected_witness :
    statusInputAccepted (some "grounded") = false ∧
    changeStatusPrompt (some "grounded") = .rejected "Invalid status" := by
  exact ⟨by decide, changeStatus_invalid_input_rejected (some "grounded") (by decide)⟩

/-- C8: both list renderers produce their distinct non-empty empty-state
fragments on an empty fetched list, never a blank container. -/
theorem empty_lists_render_empty_state :
    displayAircraftHtml [] = aircraftEmptyState ∧ aircraftEmptyState ≠ "" ∧
    activityLogsHtml [] = noActivityHtml ∧ noActivityHtml ≠ "" := by
  refine ⟨rfl, ?_, rfl, ?_⟩ <;> decide

/-- C9: the photo-upload change handler issues the upload request exactly
when the selected file's MIME type is allowed and its size does not exceed
5 · 1024 · 1024 bytes; in every case with a file selected — rejection or
upload — the file input ends up cleared. -/
theorem photoUpload_gate :
    ∀ f : FileDesc,
      (photoUploadRequested (photoInputChange (some f)) = true ↔
        allowedTypes.contains f.type = true ∧ f.size ≤ 5 * 1024 * 1024) ∧
      photoInputCleared (photoInputChange (some f)) = true := by
  intro f
  have hred : photoInputChange (some f)
      = if ¬ allowedTypes.contains f.type then .rejectedType
        else if f.size > 5 * 1024 * 1024 then .rejectedSize
        else .uploadIssued := rfl
  by_cases ht : allowedTypes.contains f.type = true
  · by_cases hs : f.size > 5 * 1024 * 1024
    · have h2 : photoInputChange (some f) = .rejectedSize := by
        rw [hred, if_neg (not_not_intro ht), if_pos hs]
      rw [h2]
      refine ⟨⟨fun hx => absurd hx (by decide), fun hx => absurd hx.2 (by omega)⟩, rfl⟩
    · have h2 : photoInputChange (some f) = .uploadIssued := by
        rw [hred, if_neg (not_not_intro ht), if_neg hs]
      rw [h2]
      exact ⟨⟨fun _ => ⟨ht, by omega⟩, fun _ => rfl⟩, rfl⟩
  · have h2 : photoInputChange (some f) = .rejectedType := by
      rw [hred, if_pos ht]
    rw [h2]
    refine ⟨⟨fun hx => absurd hx (by decide), fun hx => absurd hx.1 ht⟩, rfl⟩

/-- C10: once the user confirms logout, both storage keys are removed and the
page navigates away (`/`, or `/login` for the aircraft-admin `logout`),
whatever the `/api/logout` call returned — including a network error, since
the reply argument is never inspected. -/
theorem confirmed_logout_clears_and_navigates :
    ∀ (srv srv2 : ServerReply) (s s2 s3 : Storage),
      (applyAction (dashboardLogoutEffect true srv).storage s).access_token = none ∧
      (applyAction (dashboardLogoutEffect true srv).storage s).user = none ∧
      (dashboardLogoutEffect true srv).navigate = some "/" ∧
      (applyAction (profileLogoutEffect true srv2).storage s2).access_token = none ∧
      (applyAction (profileLogoutEffect true srv2).storage s2).user = none ∧
      (profileLogoutEffect true srv2).navigate = some "/" ∧
      (applyAction aircraftLogoutEffect.storage s3).access_token = none ∧
      (applyAction aircraftLogoutEffect.storage s3).user = none ∧
      aircraftLogoutEffect.navigate = some "/login" := by
  intro srv srv2 s s2 s3
  exact ⟨rfl, rfl, rfl, rfl, rfl, rfl, rfl, rfl, rfl⟩

/-- C1, counterexample: the aircraft status editor's PUT treats a 401 like
any other failure — it neither clears the storage keys nor navigates to the
login page, contradicting the claim that every authenticated call handles
401 as session expiry. -/
theorem changeStatus_401_not_session_expiry :
    ¬ ((changeStatusRespond 401 none).storage = .clearBoth ∧
       (changeStatusRespond 401 none).navigate = some "/login") := by decide

/-- C1, amended: exactly three call sites — the dashboard profile loader, the
profile-page profile loader, and the profile-update submit — clear both
storage keys and navigate to `/login` on a 401 (each checks 401 before its
generic error branch); the remaining authenticated calls (activity logs,
aircraft status change, aircraft save, photo upload, photo delete) treat 401
as a generic failure, leaving storage and location unchanged. -/
theorem amended_401_per_call_site :
    ∀ (renderedInfo : String) (logs : List LogEntry) (d m : Option String) (editing : Bool),
      (dashLoadProfileEffect 401 renderedInfo).storage = .clearBoth ∧
      (dashLoadProfileEffect 401 renderedInfo).navigate = some "/login" ∧
      (profileLoadProfileEffect 401).storage = .clearBoth ∧
      (profileLoadProfileEffect 401).navigate = some "/login" ∧
      (profileSubmit "John Doe" "" "" "Update Profile" (.reply 401 d none)).storage = .clearBoth ∧
      (profileSubmit "John Doe" "" "" "Update Profile" (.reply 401 d none)).navigate = some "/login" ∧
      (dashActivityLogsEffect 401 logs).storage = .keep ∧
      (dashActivityLogsEffect 401 logs).navigate = none ∧
      (changeStatusRespond 401 d).storage = .keep ∧
      (changeStatusRespond 401 d).navigate = none ∧
      (saveAircraftRespond editing 401 d).storage = .keep ∧
      (saveAircraftRespond editing 401 d).navigate = none ∧
      (photoUploadRespond 401 d m).storage = .keep ∧
      (photoUploadRespond 401 d m).navigate = none ∧
      (deletePhotoRespond 401 d m).storage = .keep ∧
      (deletePhotoRespond 401 d m).navigate = none := by
  intro renderedInfo logs d m editing
  exact ⟨rfl, rfl, rfl, rfl, rfl, rfl, rfl, rfl, rfl, rfl, rfl, rfl, rfl, rfl, rfl, rfl⟩

/-- C4, counterexample: on the profile form an empty password field — a
password input shorter than 6 characters — does not block submission: the
handler treats it as "no password change" and issues the network call. -/
theorem profile_empty_password_not_blocked :
    ("" : String).length < 6 ∧
    (profileSubmit "John Doe" "" "" "Update Profile" (.reply 200 none none)).networkCalled
      = true := by
  exact ⟨by decide, rfl⟩

/-- C4, amended: a password shorter than 6 characters blocks submission
locally — message shown, button left enabled with its caption, no network
call — on the registration and reset-password forms always, and on the
profile-update form whenever the password field is non-empty (an empty
profile password means "no password change" and submission proceeds). -/
theorem short_password_blocks :
    ∀ (p c t1 e fn ph r t2 fn2 ph2 t3 : String) (srv : ServerReply),
      p.length < 6 →
      blockedLocally (resetPasswordSubmit p c t1 srv) t1 ∧
      blockedLocally (registerSubmit e fn p ph r t2 srv) t2 ∧
      (p ≠ "" → blockedLocally (profileSubmit fn2 ph2 p t3 srv) t3) := by
  intro p c t1 e fn ph r t2 fn2 ph2 t3 srv hlen
  refine ⟨?_, ?_, ?_⟩
  · unfold resetPasswordSubmit
    rw [if_pos hlen]
    exact ⟨rfl, rfl, rfl, rfl, rfl, rfl⟩
  · unfold registerSubmit
    rw [if_pos hlen]
    exact ⟨rfl, rfl, rfl, rfl, rfl, rfl⟩
  · intro hne
    unfold profileSubmit
    rw [if_pos ⟨hne, hlen⟩]
    exact ⟨rfl, rfl, rfl, rfl, rfl, rfl⟩

/-- C4, witness: the 3-character password `abc` blocks all three forms. -/
theorem short_password_blocks_witness :
    ("abc" : String).length < 6 ∧
    blockedLocally
      (resetPasswordSubmit "abc" "zzz" "Reset Password" (.reply 200 none none))
      "Reset Password" ∧
    blockedLocally
      (registerSubmit "a@b.com" "John" "abc" "" "passenger" "Create Account"
        (.reply 200 none none))
      "Create Account" ∧
    blockedLocally
      (profileSubmit "John" "" "abc" "Update Profile" (.reply 200 none none))
      "Update Profile" := by
  have h := short_password_blocks "abc" "zzz" "Reset Password" "a@b.com" "John" ""
    "passenger" "Create Account" "John" "" "Update Profile" (.reply 200 none none)
    (by decide)
  exact ⟨by decide, h.1, h.2.1, h.2.2 (by decide)⟩

theorem resetPassword_fail_restores (p c t : String) (srv : ServerReply)
    (hf : serverFailureNon401 srv)
    (hn : (resetPasswordSubmit p c t srv).networkCalled = true) :
    restoredIdle (resetPasswordSubmit p c t srv) t := by
  cases srv with
  | netError m =>
    by_cases h1 : p.length < 6
    · simp [resetPasswordSubmit, h1] at hn
    · by_cases h2 : p ≠ c
      · simp [resetPasswordSubmit, h1, h2] at hn
      · simp [resetPasswordSubmit, restoredIdle, h1, h2]
  | reply status detail msg =>
    obtain ⟨hok, h401⟩ := hf
    by_cases h1 : p.length < 6
    · simp [resetPasswordSubmit, h1] at hn
    · by_cases h2 : p ≠ c
      · simp [resetPasswordSubmit, h1, h2] at hn
      · simp [resetPasswordSubmit, restoredIdle, h1, h2, hok]

theorem login_fail_restores (e pw t tok : String) (u : User) (srv : ServerReply)
    (hf : serverFailureNon401 srv)
    (hn : (loginSubmit e pw t srv tok u).networkCalled = true) :
    restoredIdle (loginSubmit e pw t srv tok u) t := by
  cases srv with
  | netError m =>
    by_cases hv : trimJs e = "" ∨ pw = ""
    · simp [loginSubmit, hv] at hn
    · simp [loginSubmit, restoredIdle, hv]
  | reply status detail msg =>
    obtain ⟨hok, h401⟩ := hf
    by_cases hv : trimJs e = "" ∨ pw = ""
    · simp [loginSubmit, hv] at hn
    · simp [loginSubmit, restoredIdle, hv, hok]

theorem profile_fail_restores (fn ph pwd t : String) (srv : ServerReply)
    (hf : serverFailureNon401 srv)
    (hn : (profileSubmit fn ph pwd t srv).networkCalled = true) :
    restoredIdle (profileSubmit fn ph pwd t srv) t := by
  cases srv with
  | netError m =>
    by_cases h1 : pwd ≠ "" ∧ pwd.length < 6
    · simp [profileSubmit, h1] at hn
    · by_cases h2 : trimJs fn ≠ "" ∧ (trimJs fn).length < 2
      · simp [profileSubmit, h1, h2] at hn
      · simp [profileSubmit, restoredIdle, h1, h2]
  | reply status detail msg =>
    obtain ⟨hok, h401⟩ := hf
    by_cases h1 : pwd ≠ "" ∧ pwd.length < 6
    · simp [profileSubmit, h1] at hn
    · by_cases h2 : trimJs fn ≠ "" ∧ (trimJs fn).length < 2
      · simp [profileSubmit, h1, h2] at hn
      · simp [profileSubmit, restoredIdle, h1, h2, hok, h401]

theorem register_fail_restores (e fn pw ph r t : String) (srv : ServerReply)
    (hf : serverFailureNon401 srv)
    (hn : (registerSubmit e fn pw ph r t srv).networkCalled = true) :
    restoredIdle (registerSubmit e fn pw ph r t srv) t := by
  cases srv with
  | netError m =>
    by_cases h1 : pw.length < 6
    · simp [registerSubmit, h1] at hn
    · by_cases h2 : (trimJs fn).length < 2
      · simp [registerSubmit, h1, h2] at hn
      · simp [registerSubmit, restoredIdle, h1, h2]
  | reply status detail msg =>
    obtain ⟨hok, h401⟩ := hf
    by_cases h1 : pw.length < 6
    · simp [registerSubmit, h1] at hn
    · by_cases h2 : (trimJs fn).length < 2
      · simp [registerSubmit, h1, h2] at hn
      · simp [registerSubmit, restoredIdle, h1, h2, hok]

theorem forgotPassword_fail_restores (em t : String) (srv : ServerReply)
    (hf : serverFailureNon401 srv)
    (hn : (forgotPasswordSubmit em t srv).networkCalled = true) :
    restoredIdle (forgotPasswordSubmit em t srv) t := by
  cases srv with
  | netError m =>
    by_cases h1 : trimJs em = ""
    · simp [forgotPasswordSubmit, h1] at hn
    · simp [forgotPasswordSubmit, restoredIdle, h1]
  | reply status detail msg =>
    obtain ⟨hok, h401⟩ := hf
    by_cases h1 : trimJs em = ""
    · simp [forgotPasswordSubmit, h1] at hn
    · simp [forgotPasswordSubmit, restoredIdle, h1, hok]

/-- C7: for every form submission that actually reached the network and came
back as a non-2xx other than 401 or as a network-level error, the submit
control is re-enabled with its original caption, an error message is
surfaced, and neither storage nor location changes — across all five forms. -/
theorem failed_submission_restores_idle :
    ∀ (p c e pw fn ph pwd rem rfn rpw rph rrole fr t1 t2 t3 t4 t5 tok : String)
      (u : User) (srv : ServerReply),
      serverFailureNon401 srv →
      ((resetPasswordSubmit p c t1 srv).networkCalled = true →
        restoredIdle (resetPasswordSubmit p c t1 srv) t1) ∧
      ((loginSubmit e pw t2 srv tok u).networkCalled = true →
        restoredIdle (loginSubmit e pw t2 srv tok u) t2) ∧
      ((profileSubmit fn ph pwd t3 srv).networkCalled = true →
        restoredIdle (profileSubmit fn ph pwd t3 srv) t3) ∧
      ((registerSubmit rem rfn rpw rph rrole t4 srv).networkCalled = true →
        restoredIdle (registerSubmit rem rfn rpw rph rrole t4 srv) t4) ∧
      ((forgotPasswordSubmit fr t5 srv).networkCalled = true →
        restoredIdle (forgotPasswordSubmit fr t5 srv) t5) := by
  intro p c e pw fn ph pwd rem rfn rpw rph rrole fr t1 t2 t3 t4 t5 tok u srv hf
  exact ⟨fun hn => resetPassword_fail_restores p c t1 srv hf hn,
    fun hn => login_fail_restores e pw t2 tok u srv hf hn,
    fun hn => profile_fail_restores fn ph pwd t3 srv hf hn,
    fun hn => register_fail_restores rem rfn rpw rph rrole t4 srv hf hn,
    fun hn => forgotPassword_fail_restores fr t5 srv hf hn⟩

/-- C7, witness: a 500 reply with a `detail` body restores all five forms. -/
theorem failed_submission_restores_idle_witness :
    restoredIdle
      (resetPasswordSubmit "abcdef" "abcdef" "Reset Password"
        (.reply 500 (some "boom") none)) "Reset Password" ∧
    restoredIdle
      (loginSubmit "a@b.com" "secret" "Login" (.reply 500 (some "boom") none)
        "tok" { full_name := "Jo", email := "a@b.com" }) "Login" ∧
    restoredIdle
      (profileSubmit "John Doe" "" "" "Update Profile"
        (.reply 500 (some "boom") none)) "Update Profile" ∧
    restoredIdle
      (registerSubmit "a@b.com" "John" "abcdef" "" "passenger" "Create Account"
        (.reply 500 (some "boom") none)) "Create Account" ∧
    restoredIdle
      (forgotPasswordSubmit "a@b.com" "Send Reset Link"
        (.reply 500 (some "boom") none)) "Send Reset Link" := by
  have h := failed_submission_restores_idle "abcdef" "abcdef" "a@b.com" "secret"
    "John Doe" "" "" "a@b.com" "John" "abcdef" "" "passenger" "a@b.com"
    "Reset Password" "Login" "Update Profile" "Create Account" "Send Reset Link"
    "tok" { full_name := "Jo", email := "a@b.com" }
    (.reply 500 (some "boom") none) ⟨by decide, by decide⟩
  exact ⟨h.1 rfl, h.2.1 rfl, h.2.2.1 rfl, h.2.2.2.1 rfl, h.2.2.2.2 rfl⟩

/-- C9, witness: a small PNG passes both checks — the upload is issued and
the input is cleared afterwards. -/
theorem photoUpload_gate_witness :
    photoUploadRequested (photoInputChange (some { type := "image/png", size := 100 })) = true ∧
    photoInputCleared (photoInputChange (some { type := "image/png", size := 100 })) = true :=
  ⟨(photoUpload_gate { type := "image/png", size := 100 }).1.mpr ⟨by decide, by decide⟩,
   (photoUpload_gate { type := "image/png", size := 100 }).2⟩
